import Mathlib

/-!
# nazerkhh/shop — persistence layer and Find handler

A shallow embedding of `repository/repository.go` and of the `FindItem`
handler of `handlers/handlers.go`.

* Go values `(T, error)` become tuples with `Option` for every pointer / error
  that may be `nil`.
* The `*gorm.DB` handle is a record of the five gorm calls the repository
  makes (`Find`, `First`, `Save`, `Updates`, `Delete`), each given in
  state-passing style.  The repository functions are written once, over an
  arbitrary such record, exactly as in the Go source.
* `memDB` is a reference table (rows + id counter + optional driver fault)
  that instantiates the record; the stateful properties are proved over it.
-/

set_option autoImplicit false

namespace Shop

/-! ## Go errors -/

/-- Go `error` values, as far as the repository can observe them:
the sentinel `gorm.ErrRecordNotFound`, values built by `errors.New`,
errors reported by the driver, and errors wrapping another one. -/
inductive GoError where
  | ErrRecordNotFound : GoError
  | New (text : String) : GoError
  | Driver (text : String) : GoError
  | Wrap (text : String) (inner : GoError) : GoError
deriving DecidableEq, Repr

/-- Go `errors.Is(err, target)`: walks the unwrap chain of `err`. -/
def errorsIs : GoError → GoError → Bool
  | .Wrap text inner, target =>
      if GoError.Wrap text inner = target then true else errorsIs inner target
  | e, target => decide (e = target)

/-! ## Data model -/

/-- Modelled from the spec: `models.Item` (the `models` package is not part of
the sources at hand).  "Item — id: integer, store-assigned; name: optional
string; price: optional numeric value; sold: optional boolean".  The three
payload fields are Go pointers, `none` being `nil`; a zero `ID` is the Go zero
value of a record that was never stored. -/
structure Item where
  ID : Int
  Name : Option String
  Price : Option Rat
  Sold : Option Bool
deriving DecidableEq, Repr

/-- Go zero value `var item models.Item`. -/
def Item.zero : Item := { ID := 0, Name := none, Price := none, Sold := none }

/-- The part of a finished gorm statement (`*gorm.DB`) the repository reads:
`result.Error` and `result.RowsAffected`. -/
structure Result where
  Error : Option GoError
  RowsAffected : Int
deriving DecidableEq, Repr

/-- The gorm calls made through `r.db`, over a store state `σ`.

* `Find s` is `r.db.Find(&items)`: the error and the filled slice.
* `First s id` is `r.db.First(&item, id)`: the error and the filled record.
* `Save s item` is `r.db.Save(&item)`: new state, error, and `item` as gorm
  leaves it (primary key written back).
* `Updates s id item` is
  `r.db.Model(&item).Where("items.id = ?", id).Updates(item)`.
* `Delete s id` is `r.db.Where("id = ?", id).Delete(&item)`. -/
structure DB (σ : Type) where
  Find : σ → Option GoError × List Item
  First : σ → Int → Option GoError × Item
  Save : σ → Item → σ × Option GoError × Item
  Updates : σ → Int → Item → σ × Result
  Delete : σ → Int → σ × Result

/-! ## repository/repository.go -/

section Repository

variable {σ : Type}

/-- Method `itemRepository.isItemComplete`. -/
def isItemComplete (item : Item) : Bool :=
  item.Name != none && item.Price != none && item.Sold != none

/-- Method `itemRepository.ListItems`: `(items, err)`; `none` is the `nil` slice. -/
def ListItems (r : DB σ) (s : σ) : Option (List Item) × Option GoError :=
  match r.Find s with
  | (some err, _) => (none, some err)
  | (none, items) => (some items, none)

/-- Method `itemRepository.FindItem`: `(item, found, err)`. -/
def FindItem (r : DB σ) (s : σ) (id : Int) : Option Item × Bool × Option GoError :=
  match r.First s id with
  | (some err, _) =>
      if errorsIs err GoError.ErrRecordNotFound then (none, false, none)
      else (none, false, some err)
  | (none, item) =>
      if !isItemComplete item then (none, false, some (GoError.New "broken item found"))
      else (some item, true, none)

/-- Method `itemRepository.CreateItem`: new state and `(item, err)`. -/
def CreateItem (r : DB σ) (s : σ) (input : Item) : σ × Option Item × Option GoError :=
  let f := false
  let item : Item := { ID := 0, Name := input.Name, Price := input.Price, Sold := some f }
  match r.Save s item with
  | (s', some err, _) => (s', none, some err)
  | (s', none, item') => (s', some item', none)

/-- Method `itemRepository.UpdateItem`: new state and `(item, err)`. -/
def UpdateItem (r : DB σ) (s : σ) (id : Int) (input : Item) :
    σ × Option Item × Option GoError :=
  let item : Item := { ID := 0, Name := input.Name, Price := input.Price, Sold := input.Sold }
  let (s', result) := r.Updates s id item
  match result.Error with
  | some err => (s', none, some err)
  | none =>
      if result.RowsAffected = 0 then (s', none, some (GoError.New "no item found to update"))
      else (s', some item, none)

/-- Method `itemRepository.DeleteItem`: new state and `err`. -/
def DeleteItem (r : DB σ) (s : σ) (id : Int) : σ × Option GoError :=
  let (s', result) := r.Delete s id
  match result.Error with
  | some err => (s', some err)
  | none =>
      if result.RowsAffected = 0 then (s', some (GoError.New "no item found to delete"))
      else (s', none)

end Repository

/-! ## Reference table behind the gorm calls -/

/-- Contents of the `items` table: the live rows in storage order and the
last primary key handed out by the auto-increment column. -/
structure Table where
  rows : List Item
  lastID : Int
deriving DecidableEq, Repr

/-- The empty table. -/
def Table.empty : Table := { rows := [], lastID := 0 }

/-- Well-formed tables: primary keys are positive, unique, and not above the
auto-increment counter, which is never negative. -/
def Table.WF (t : Table) : Prop :=
  (t.rows.map Item.ID).Nodup ∧ 0 ≤ t.lastID ∧ ∀ row ∈ t.rows, 0 < row.ID ∧ row.ID ≤ t.lastID

/-- First live row with the given primary key:
`SELECT * FROM items WHERE id = ? ORDER BY id LIMIT 1`. -/
def Table.lookup (t : Table) (id : Int) : Option Item :=
  t.rows.find? (fun row => row.ID == id)

/-- The `SET` clause gorm builds from a struct value: only non-zero (here:
non-nil) fields are assigned; the primary key is never assigned. -/
def assign (values row : Item) : Item :=
  { ID := row.ID
    Name := match values.Name with | some n => some n | none => row.Name
    Price := match values.Price with | some p => some p | none => row.Price
    Sold := match values.Sold with | some b => some b | none => row.Sold }

/-- Number of rows matching `id = ?`. -/
def Table.matching (t : Table) (id : Int) : Int :=
  ((t.rows.filter (fun row => row.ID == id)).length : Int)

/-- The gorm calls over a `Table`.  `fault = some e` is a driver that fails
every statement with `e` and changes nothing; `fault = none` is a healthy one.

* `First` reports `gorm.ErrRecordNotFound` when no row matches and leaves the
  destination at its zero value.
* `Save` of a record with zero primary key inserts it under the next
  auto-increment key and writes the key back; with a non-zero key it replaces
  the row of that key, or inserts it when there is none.
* `Updates` assigns the non-nil fields on every matching row (the embedded
  gorm bookkeeping columns make the statement non-empty even when all three
  payload fields are nil) and reports the number of matching rows.
* `Delete` removes every matching row from the live rows and reports their
  number. -/
def memDB (fault : Option GoError) : DB Table where
  Find t :=
    match fault with
    | some e => (some e, [])
    | none => (none, t.rows)
  First t id :=
    match fault with
    | some e => (some e, Item.zero)
    | none =>
        match t.lookup id with
        | some row => (none, row)
        | none => (some GoError.ErrRecordNotFound, Item.zero)
  Save t item :=
    match fault with
    | some e => (t, some e, item)
    | none =>
        if item.ID = 0 then
          let stored : Item := { item with ID := t.lastID + 1 }
          ({ rows := t.rows ++ [stored], lastID := t.lastID + 1 }, none, stored)
        else if t.matching item.ID = 0 then
          ({ rows := t.rows ++ [item], lastID := max t.lastID item.ID }, none, item)
        else
          ({ t with rows := t.rows.map (fun row => if row.ID = item.ID then item else row) },
            none, item)
  Updates t id values :=
    match fault with
    | some e => (t, { Error := some e, RowsAffected := 0 })
    | none =>
        ({ t with rows := t.rows.map (fun row => if row.ID = id then assign values row else row) },
          { Error := none, RowsAffected := t.matching id })
  Delete t id :=
    match fault with
    | some e => (t, { Error := some e, RowsAffected := 0 })
    | none =>
        ({ t with rows := t.rows.filter (fun row => row.ID != id) },
          { Error := none, RowsAffected := t.matching id })

/-! ## handlers/handlers.go — `FindItem` -/

namespace handlers

/-- The two `strconv.NumError.Err` values `Atoi` can report. -/
inductive NumErr where
  | ErrSyntax : NumErr
  | ErrRange : NumErr
deriving DecidableEq, Repr

/-- Go `*strconv.NumError` as returned by `strconv.Atoi`. -/
structure NumError where
  Func : String
  Num : String
  Err : NumErr
deriving DecidableEq, Repr

/-- Value of a decimal digit, `none` for any other character. -/
def digit (c : Char) : Option Nat :=
  if '0' ≤ c ∧ c ≤ '9' then some (c.toNat - '0'.toNat) else none

/-- Digit loop of `strconv.ParseUint(s, 10, 64)`: the first offending
character decides between a syntax error and an unsigned 64-bit overflow. -/
def parseUint : List Char → Nat → Except NumErr Nat
  | [], n => Except.ok n
  | c :: cs, n =>
      match digit c with
      | none => Except.error NumErr.ErrSyntax
      | some d =>
          if n * 10 + d > 2 ^ 64 - 1 then Except.error NumErr.ErrRange
          else parseUint cs (n * 10 + d)

/-- Go `strconv.Atoi` on a 64-bit platform: optional sign, at least one
decimal digit, value within the range of `int`. -/
def Atoi (s : String) : Except NumError Int :=
  let fail (e : NumErr) : Except NumError Int :=
    Except.error { Func := "Atoi", Num := s, Err := e }
  let signed (neg : Bool) (cs : List Char) : Except NumError Int :=
    if cs.isEmpty then fail NumErr.ErrSyntax
    else
      match parseUint cs 0 with
      | Except.error e => fail e
      | Except.ok un =>
          if !neg && un ≥ 2 ^ 63 then fail NumErr.ErrRange
          else if neg && un > 2 ^ 63 then fail NumErr.ErrRange
          else Except.ok (if neg then -(un : Int) else (un : Int))
  match s.toList with
  | [] => fail NumErr.ErrSyntax
  | '-' :: cs => signed true cs
  | '+' :: cs => signed false cs
  | cs => signed false cs

/-- Go `http.StatusOK`. -/
def StatusOK : Nat := 200

/-- Go `http.StatusBadRequest`. -/
def StatusBadRequest : Nat := 400

/-- Go `http.StatusNotFound`. -/
def StatusNotFound : Nat := 404

/-- The `gin.H` bodies the handler writes: `{"error": fmt.Sprintf(format, err)}`,
`{"error": text}` and `{"data": item}` (`none` being JSON `null`). -/
inductive Body where
  | errorf (format : String) (err : NumError) : Body
  | error (text : String) : Body
  | data (item : Option Item) : Body
deriving DecidableEq, Repr

/-- What `c.JSON(code, body)` sends. -/
structure Response where
  code : Nat
  body : Body
deriving DecidableEq, Repr

/-- Method `itemHandler.FindItem`.  `param` is `c.Param("id")`; `svc` is the
`FindItem` method of the injected `services.ItemService`, in state-passing
style over the service state `τ`. -/
def FindItem {τ : Type} (svc : τ → Int → τ × (Option Item × Bool × Option GoError))
    (st : τ) (param : String) : τ × Response :=
  match Atoi param with
  | Except.error err =>
      (st, { code := StatusBadRequest, body := Body.errorf "bad id value: %s" err })
  | Except.ok id =>
      match svc st id with
      | (st', _, _, some _) =>
          (st', { code := StatusBadRequest, body := Body.error "item not found" })
      | (st', item, found, none) =>
          if found then (st', { code := StatusOK, body := Body.data item })
          else (st', { code := StatusNotFound, body := Body.data none })

end handlers

/-! ## Sample data -/

/-- A complete record: `{id: 1, name: "Book", price: 12.5, sold: false}`. -/
def book : Item := { ID := 1, Name := some "Book", Price := some (25 / 2), Sold := some false }

/-- A stored record whose `name` is null. -/
def nameless : Item := { ID := 2, Name := none, Price := some 3, Sold := some true }

/-- A table holding `book` and `nameless`. -/
def shelf : Table := { rows := [book, nameless], lastID := 2 }

/-- A service stub that counts its calls and answers from `shelf`. -/
def countingService (calls : Nat) (id : Int) : Nat × (Option Item × Bool × Option GoError) :=
  (calls + 1, FindItem (memDB none) shelf id)

/-! ## Properties of `FindItem` over an arbitrary backing store -/

section Generic

variable {σ : Type}

theorem isItemComplete_iff (item : Item) :
    isItemComplete item = true ↔ item.Name ≠ none ∧ item.Price ≠ none ∧ item.Sold ≠ none := by
  cases item with
  | mk i n p b => cases n <;> cases p <;> cases b <;> simp [isItemComplete]

theorem FindItem_of_record (r : DB σ) (s : σ) (id : Int) (record : Item)
    (h : r.First s id = (none, record)) :
    FindItem r s id =
      if isItemComplete record then (some record, true, none)
      else (none, false, some (GoError.New "broken item found")) := by
  unfold FindItem
  rw [h]
  cases hc : isItemComplete record <;> simp [hc]

theorem FindItem_of_error (r : DB σ) (s : σ) (id : Int) (e : GoError) (dest : Item)
    (h : r.First s id = (some e, dest)) :
    FindItem r s id =
      if errorsIs e GoError.ErrRecordNotFound then (none, false, none)
      else (none, false, some e) := by
  unfold FindItem
  rw [h]

/-- C1: whenever the backing lookup returns a record without error, `FindItem`
returns `(record, true, nil)` exactly when name, price and sold are all
non-null; if any of them is null it returns `(nil, false, err)` with the
non-nil "broken item found" error, and `found` is never `true` then. -/
theorem FindItem_found_iff_complete (r : DB σ) (s : σ) (id : Int) (record : Item)
    (h : r.First s id = (none, record)) :
    (FindItem r s id = (some record, true, none) ↔
        (record.Name ≠ none ∧ record.Price ≠ none ∧ record.Sold ≠ none)) ∧
    ((FindItem r s id).2.1 = true ↔
        (record.Name ≠ none ∧ record.Price ≠ none ∧ record.Sold ≠ none)) ∧
    ((record.Name = none ∨ record.Price = none ∨ record.Sold = none) →
        FindItem r s id = (none, false, some (GoError.New "broken item found"))) := by
  rw [FindItem_of_record r s id record h, ← isItemComplete_iff]
  cases hc : isItemComplete record
  · have hn := (isItemComplete_iff record).not.mp (by simp [hc])
    refine ⟨by simp, by simp, fun _ => by simp⟩
  · have hy := (isItemComplete_iff record).mp hc
    refine ⟨by simp, by simp, ?_⟩
    rintro (h1 | h1 | h1)
    · exact absurd h1 hy.1
    · exact absurd h1 hy.2.1
    · exact absurd h1 hy.2.2

theorem FindItem_found_iff_complete_witness :
    (memDB none).First shelf 2 = (none, nameless) ∧
    ((FindItem (memDB none) shelf 2 = (some nameless, true, none) ↔
        (nameless.Name ≠ none ∧ nameless.Price ≠ none ∧ nameless.Sold ≠ none)) ∧
    ((FindItem (memDB none) shelf 2).2.1 = true ↔
        (nameless.Name ≠ none ∧ nameless.Price ≠ none ∧ nameless.Sold ≠ none)) ∧
    ((nameless.Name = none ∨ nameless.Price = none ∨ nameless.Sold = none) →
        FindItem (memDB none) shelf 2 = (none, false, some (GoError.New "broken item found")))) :=
  ⟨rfl, FindItem_found_iff_complete (memDB none) shelf 2 nameless rfl⟩

end Generic

/-! ## Facts about the reference table -/

theorem lookup_eq_none_iff (t : Table) (id : Int) :
    t.lookup id = none ↔ ∀ row ∈ t.rows, row.ID ≠ id := by
  simp [Table.lookup, List.find?_eq_none]

theorem lookup_some_mem (t : Table) (id : Int) (row : Item) (h : t.lookup id = some row) :
    row ∈ t.rows ∧ row.ID = id := by
  unfold Table.lookup at h
  exact ⟨List.mem_of_find?_eq_some h, by simpa using List.find?_some h⟩

theorem matching_eq_zero_iff (t : Table) (id : Int) :
    t.matching id = 0 ↔ ∀ row ∈ t.rows, row.ID ≠ id := by
  simp [Table.matching, List.filter_eq_nil_iff]

theorem matching_ne_zero_iff (t : Table) (id : Int) :
    t.matching id ≠ 0 ↔ ∃ row ∈ t.rows, row.ID = id := by
  rw [Ne, matching_eq_zero_iff]
  push_neg
  rfl

section Generic

variable {σ : Type}

/-- C2: for every outcome of the backing lookup the result of `FindItem` has
exactly one of the shapes `(item, true, nil)`, `(nil, false, nil)`,
`(nil, false, err)`; the first arises exactly for a complete record, the
second exactly for a record-not-found error, the third exactly for an
incomplete record or any other error.  On the reference table an id with no
stored record gives `(nil, false, nil)`. -/
theorem FindItem_three_shapes (r : DB σ) (s : σ) (id : Int) (t : Table) (k : Int) :
    ((∃ item, FindItem r s id = (some item, true, none)) ↔
        ((r.First s id).1 = none ∧ isItemComplete (r.First s id).2 = true)) ∧
    (FindItem r s id = (none, false, none) ↔
        ∃ e, (r.First s id).1 = some e ∧ errorsIs e GoError.ErrRecordNotFound = true) ∧
    ((∃ e, FindItem r s id = (none, false, some e)) ↔
        (((r.First s id).1 = none ∧ isItemComplete (r.First s id).2 = false) ∨
          ∃ e, (r.First s id).1 = some e ∧ errorsIs e GoError.ErrRecordNotFound = false)) ∧
    ((∃ item, FindItem r s id = (some item, true, none)) ∨
        FindItem r s id = (none, false, none) ∨
        (∃ e, FindItem r s id = (none, false, some e))) ∧
    ¬ ((∃ item, FindItem r s id = (some item, true, none)) ∧
        FindItem r s id = (none, false, none)) ∧
    ¬ ((∃ item, FindItem r s id = (some item, true, none)) ∧
        (∃ e, FindItem r s id = (none, false, some e))) ∧
    ¬ (FindItem r s id = (none, false, none) ∧
        (∃ e, FindItem r s id = (none, false, some e))) ∧
    ((∀ row ∈ t.rows, row.ID ≠ k) → FindItem (memDB none) t k = (none, false, none)) := by
  have hlast : (∀ row ∈ t.rows, row.ID ≠ k) → FindItem (memDB none) t k = (none, false, none) := by
    intro hk
    have hl := (lookup_eq_none_iff t k).mpr hk
    simp [FindItem, memDB, hl, errorsIs]
  rcases hf : r.First s id with ⟨_ | e, dest⟩
  · rw [FindItem_of_record r s id dest hf]
    cases hc : isItemComplete dest <;> simp <;> exact hlast
  · rw [FindItem_of_error r s id e dest hf]
    cases he : errorsIs e GoError.ErrRecordNotFound <;> simp [he] <;> exact hlast

theorem FindItem_three_shapes_witness :
    (∀ row ∈ shelf.rows, row.ID ≠ 7) ∧ FindItem (memDB none) shelf 7 = (none, false, none) :=
  ⟨by decide,
    (FindItem_three_shapes (memDB none) shelf 1 shelf 7).2.2.2.2.2.2.2 (by decide)⟩

/-- C8: `ListItems` returns exactly the sequence the backing store yields, in
the same order and with incomplete records kept (on the reference table: all
rows, untouched); when the backing store fails it returns the nil sequence and
that error. -/
theorem ListItems_returns_backing_rows (r : DB σ) (s : σ) (t : Table) :
    (∀ items, r.Find s = (none, items) → ListItems r s = (some items, none)) ∧
    (∀ e items, r.Find s = (some e, items) → ListItems r s = (none, some e)) ∧
    ListItems (memDB none) t = (some t.rows, none) ∧
    (∀ e, ListItems (memDB (some e)) t = (none, some e)) := by
  refine ⟨?_, ?_, rfl, fun e => rfl⟩
  · intro items h
    simp [ListItems, h]
  · intro e items h
    simp [ListItems, h]

theorem ListItems_returns_backing_rows_witness :
    (memDB none).Find shelf = (none, [book, nameless]) ∧
    ListItems (memDB none) shelf = (some [book, nameless], none) :=
  ⟨rfl, (ListItems_returns_backing_rows (memDB none) shelf shelf).1 [book, nameless] rfl⟩

/-- C9: whenever the gorm call behind `ListItems`, `FindItem`, `CreateItem`,
`UpdateItem` or `DeleteItem` reports an error, the operation returns that
same error and no result value; the one exception is an error of `First`
that is `gorm.ErrRecordNotFound`, which `FindItem` turns into
`(nil, false, nil)`. -/
theorem errors_are_propagated (r : DB σ) (s : σ) (id : Int) (input : Item) (e : GoError) :
    (∀ items, r.Find s = (some e, items) → ListItems r s = (none, some e)) ∧
    (∀ dest, r.First s id = (some e, dest) → errorsIs e GoError.ErrRecordNotFound = false →
        FindItem r s id = (none, false, some e)) ∧
    (∀ dest, r.First s id = (some e, dest) → errorsIs e GoError.ErrRecordNotFound = true →
        FindItem r s id = (none, false, none)) ∧
    (∀ s1 dest,
        r.Save s { ID := 0, Name := input.Name, Price := input.Price, Sold := some false }
          = (s1, some e, dest) →
        CreateItem r s input = (s1, none, some e)) ∧
    (∀ s1 rows,
        r.Updates s id { ID := 0, Name := input.Name, Price := input.Price, Sold := input.Sold }
          = (s1, { Error := some e, RowsAffected := rows }) →
        UpdateItem r s id input = (s1, none, some e)) ∧
    (∀ s1 rows, r.Delete s id = (s1, { Error := some e, RowsAffected := rows }) →
        DeleteItem r s id = (s1, some e)) := by
  refine ⟨?_, ?_, ?_, ?_, ?_, ?_⟩
  · intro items h
    simp [ListItems, h]
  · intro dest h he
    simp [FindItem_of_error r s id e dest h, he]
  · intro dest h he
    simp [FindItem_of_error r s id e dest h, he]
  · intro s1 dest h
    simp [CreateItem, h]
  · intro s1 rows h
    simp [UpdateItem, h]
  · intro s1 rows h
    simp [DeleteItem, h]

theorem errors_are_propagated_witness :
    (memDB (some (GoError.Driver "connection refused"))).Delete shelf 1
        = (shelf, { Error := some (GoError.Driver "connection refused"), RowsAffected := 0 }) ∧
    DeleteItem (memDB (some (GoError.Driver "connection refused"))) shelf 1
        = (shelf, some (GoError.Driver "connection refused")) :=
  ⟨rfl,
    (errors_are_propagated (memDB (some (GoError.Driver "connection refused"))) shelf 1 book
      (GoError.Driver "connection refused")).2.2.2.2.2 shelf 0 rfl⟩

end Generic

/-! ## The Find handler -/

/-- C10: for an id parameter that parses as an integer the handler answers
from the service outcome: `found` without error gives 200 with the record,
not found without error gives 404 (a code different from 200 and from 400),
any error gives 400 "item not found"; a parameter that does not parse gives
400 with the state of the service untouched, whatever the service is. -/
theorem handlers.FindItem_response_mapping {τ : Type}
    (svc : τ → Int → τ × (Option Item × Bool × Option GoError)) (st : τ) (param : String) :
    (∀ id, handlers.Atoi param = Except.ok id →
      (∀ st1 item, svc st id = (st1, item, true, none) →
        handlers.FindItem svc st param
          = (st1, { code := handlers.StatusOK, body := handlers.Body.data item })) ∧
      (∀ st1 item, svc st id = (st1, item, false, none) →
        handlers.FindItem svc st param
          = (st1, { code := handlers.StatusNotFound, body := handlers.Body.data none })) ∧
      (∀ st1 item found e, svc st id = (st1, item, found, some e) →
        handlers.FindItem svc st param
          = (st1, { code := handlers.StatusBadRequest,
                    body := handlers.Body.error "item not found" }))) ∧
    (∀ err, handlers.Atoi param = Except.error err →
      handlers.FindItem svc st param
        = (st, { code := handlers.StatusBadRequest,
                 body := handlers.Body.errorf "bad id value: %s" err })) ∧
    handlers.StatusOK = 200 ∧ handlers.StatusNotFound = 404 ∧ handlers.StatusBadRequest = 400 ∧
    handlers.StatusNotFound ≠ handlers.StatusOK ∧
    handlers.StatusNotFound ≠ handlers.StatusBadRequest := by
  refine ⟨?_, ?_, rfl, rfl, rfl, by decide, by decide⟩
  · intro id hid
    refine ⟨?_, ?_, ?_⟩
    · intro st1 item h
      simp [handlers.FindItem, hid, h]
    · intro st1 item h
      simp [handlers.FindItem, hid, h]
    · intro st1 item found e h
      simp [handlers.FindItem, hid, h]
  · intro err herr
    simp [handlers.FindItem, herr]

theorem handlers.FindItem_response_mapping_witness :
    (handlers.Atoi "2" = Except.ok 2 ∧
      countingService 0 2 = (1, none, false, some (GoError.New "broken item found")) ∧
      handlers.FindItem countingService 0 "2"
        = (1, { code := 400, body := handlers.Body.error "item not found" })) ∧
    (handlers.Atoi "1" = Except.ok 1 ∧
      countingService 0 1 = (1, some book, true, none) ∧
      handlers.FindItem countingService 0 "1"
        = (1, { code := 200, body := handlers.Body.data (some book) })) ∧
    (handlers.Atoi "7" = Except.ok 7 ∧
      countingService 0 7 = (1, none, false, none) ∧
      handlers.FindItem countingService 0 "7"
        = (1, { code := 404, body := handlers.Body.data none })) ∧
    (handlers.Atoi "1x" = Except.error { Func := "Atoi", Num := "1x", Err := handlers.NumErr.ErrSyntax } ∧
      handlers.FindItem countingService 0 "1x"
        = (0, { code := 400,
                body := handlers.Body.errorf "bad id value: %s"
                  { Func := "Atoi", Num := "1x", Err := handlers.NumErr.ErrSyntax } })) :=
  ⟨⟨rfl, rfl,
      ((handlers.FindItem_response_mapping countingService 0 "2").1 2 rfl).2.2
        1 none false (GoError.New "broken item found") rfl⟩,
    ⟨rfl, rfl,
      ((handlers.FindItem_response_mapping countingService 0 "1").1 1 rfl).1 1 (some book) rfl⟩,
    ⟨rfl, rfl,
      ((handlers.FindItem_response_mapping countingService 0 "7").1 7 rfl).2.1 1 none rfl⟩,
    ⟨rfl,
      (handlers.FindItem_response_mapping countingService 0 "1x").2.1
        { Func := "Atoi", Num := "1x", Err := handlers.NumErr.ErrSyntax } rfl⟩⟩

/-! ## Stateful properties over the reference table -/

theorem CreateItem_healthy (t : Table) (input : Item) :
    CreateItem (memDB none) t input =
      ({ rows := t.rows ++ [{ ID := t.lastID + 1, Name := input.Name, Price := input.Price,
                              Sold := some false }],
         lastID := t.lastID + 1 },
        some { ID := t.lastID + 1, Name := input.Name, Price := input.Price, Sold := some false },
        none) := by
  simp [CreateItem, memDB]

theorem CreateItem_faulty (t : Table) (input : Item) (e : GoError) :
    CreateItem (memDB (some e)) t input = (t, none, some e) := by
  simp [CreateItem, memDB]

theorem UpdateItem_healthy (t : Table) (id : Int) (input : Item) :
    UpdateItem (memDB none) t id input =
      if t.matching id = 0 then
        ({ t with rows := t.rows.map (fun row =>
              if row.ID = id then
                assign { ID := 0, Name := input.Name, Price := input.Price, Sold := input.Sold } row
              else row) },
          none, some (GoError.New "no item found to update"))
      else
        ({ t with rows := t.rows.map (fun row =>
              if row.ID = id then
                assign { ID := 0, Name := input.Name, Price := input.Price, Sold := input.Sold } row
              else row) },
          some { ID := 0, Name := input.Name, Price := input.Price, Sold := input.Sold }, none) := by
  simp [UpdateItem, memDB]

theorem UpdateItem_faulty (t : Table) (id : Int) (input : Item) (e : GoError) :
    UpdateItem (memDB (some e)) t id input = (t, none, some e) := by
  simp [UpdateItem, memDB]

theorem DeleteItem_healthy (t : Table) (id : Int) :
    DeleteItem (memDB none) t id =
      if t.matching id = 0 then
        ({ t with rows := t.rows.filter (fun row => row.ID != id) },
          some (GoError.New "no item found to delete"))
      else ({ t with rows := t.rows.filter (fun row => row.ID != id) }, none) := by
  simp [DeleteItem, memDB]

theorem DeleteItem_faulty (t : Table) (id : Int) (e : GoError) :
    DeleteItem (memDB (some e)) t id = (t, some e) := by
  simp [DeleteItem, memDB]

theorem map_unmatched (rows : List Item) (id : Int) (f : Item → Item)
    (h : ∀ row ∈ rows, row.ID ≠ id) :
    rows.map (fun row => if row.ID = id then f row else row) = rows := by
  induction rows with
  | nil => rfl
  | cons a rest ih =>
      have ha : a.ID ≠ id := h a (List.mem_cons_self a rest)
      have hr : ∀ row ∈ rest, row.ID ≠ id := fun row hrow => h row (List.mem_cons_of_mem a hrow)
      simp [ha, ih hr]

theorem filter_unmatched (rows : List Item) (id : Int) (h : ∀ row ∈ rows, row.ID ≠ id) :
    rows.filter (fun row => row.ID != id) = rows := by
  rw [List.filter_eq_self]
  intro row hrow
  simpa using h row hrow

/-- C3: a `CreateItem` whose persistence succeeds returns the input's name and
price with `sold = false`, under an id that no row of a well-formed table
uses, and stores exactly that record; the id and sold the input carried are
ignored; a healthy backing store always succeeds; a failing one gives
`(nil, err)` with the storage error and stores nothing. -/
theorem CreateItem_returns_fresh_unsold (fault : Option GoError) (t : Table) (input : Item) :
    (∀ t1 item, CreateItem (memDB fault) t input = (t1, some item, none) →
      item.Name = input.Name ∧ item.Price = input.Price ∧ item.Sold = some false ∧
      (t.WF → ∀ row ∈ t.rows, row.ID ≠ item.ID) ∧
      t1.rows = t.rows ++ [item]) ∧
    (∀ other : Item, other.Name = input.Name → other.Price = input.Price →
      CreateItem (memDB fault) t other = CreateItem (memDB fault) t input) ∧
    (∃ t1 item, CreateItem (memDB none) t input = (t1, some item, none)) ∧
    (∀ e, CreateItem (memDB (some e)) t input = (t, none, some e)) := by
  refine ⟨?_, ?_, ⟨_, _, CreateItem_healthy t input⟩, CreateItem_faulty t input⟩
  · intro t1 item h
    cases fault with
    | some e => simp [CreateItem_faulty] at h
    | none =>
        rw [CreateItem_healthy] at h
        simp only [Prod.mk.injEq, Option.some.injEq, and_true] at h
        obtain ⟨ht, hi⟩ := h
        subst hi
        subst ht
        refine ⟨rfl, rfl, rfl, ?_, rfl⟩
        intro hwf row hrow
        have := (hwf.2.2 row hrow).2
        simp only
        omega
  · intro other hn hp
    simp [CreateItem, hn, hp]

theorem CreateItem_returns_fresh_unsold_witness :
    (CreateItem (memDB none) shelf { ID := 1, Name := some "Pen", Price := none, Sold := some true }
        = ({ rows := [book, nameless, { ID := 3, Name := some "Pen", Price := none, Sold := some false }],
             lastID := 3 },
           some { ID := 3, Name := some "Pen", Price := none, Sold := some false }, none)) ∧
    shelf.WF ∧
    (∀ row ∈ shelf.rows, row.ID ≠ 3) :=
  ⟨rfl, by unfold Table.WF; decide,
    ((CreateItem_returns_fresh_unsold none shelf
        { ID := 1, Name := some "Pen", Price := none, Sold := some true }).1
      _ { ID := 3, Name := some "Pen", Price := none, Sold := some false } rfl).2.2.2.1
      (by unfold Table.WF; decide)⟩

/-- C5: `UpdateItem` on an id that matches no stored record returns a nil item
and a non-nil error and leaves the table unchanged; with a healthy backing
store the error is the "no item found to update" one raised for zero affected
rows. -/
theorem UpdateItem_missing_id (fault : Option GoError) (t : Table) (id : Int) (input : Item)
    (h : ∀ row ∈ t.rows, row.ID ≠ id) :
    (∃ e, UpdateItem (memDB fault) t id input = (t, none, some e)) ∧
    UpdateItem (memDB none) t id input = (t, none, some (GoError.New "no item found to update")) := by
  have hm := (matching_eq_zero_iff t id).mpr h
  have hh : UpdateItem (memDB none) t id input
      = (t, none, some (GoError.New "no item found to update")) := by
    rw [UpdateItem_healthy, if_pos hm, map_unmatched t.rows id _ h]
  refine ⟨?_, hh⟩
  cases fault with
  | some e => exact ⟨e, UpdateItem_faulty t id input e⟩
  | none => exact ⟨_, hh⟩

theorem UpdateItem_missing_id_witness :
    (∀ row ∈ shelf.rows, row.ID ≠ 5) ∧
    UpdateItem (memDB none) shelf 5 { ID := 0, Name := none, Price := some 9, Sold := none }
      = (shelf, none, some (GoError.New "no item found to update")) :=
  ⟨by decide,
    (UpdateItem_missing_id none shelf 5 { ID := 0, Name := none, Price := some 9, Sold := none }
      (by decide)).2⟩

/-- C6: `DeleteItem` on an id with no stored record returns a non-nil error
(with a healthy backing store: "no item found to delete") and leaves the table
unchanged; on an id with a stored record and a healthy backing store, the
first call returns nil and the second call on the resulting table returns the
"no item found to delete" error. -/
theorem DeleteItem_twice (fault : Option GoError) (t : Table) (id : Int) :
    ((∀ row ∈ t.rows, row.ID ≠ id) →
      (∃ e, DeleteItem (memDB fault) t id = (t, some e)) ∧
      DeleteItem (memDB none) t id = (t, some (GoError.New "no item found to delete"))) ∧
    ((∃ row ∈ t.rows, row.ID = id) →
      (DeleteItem (memDB none) t id).2 = none ∧
      DeleteItem (memDB none) (DeleteItem (memDB none) t id).1 id
        = ((DeleteItem (memDB none) t id).1, some (GoError.New "no item found to delete"))) := by
  have key : ∀ u : Table, (∀ row ∈ u.rows, row.ID ≠ id) →
      DeleteItem (memDB none) u id = (u, some (GoError.New "no item found to delete")) := by
    intro u hu
    rw [DeleteItem_healthy, if_pos ((matching_eq_zero_iff u id).mpr hu), filter_unmatched u.rows id hu]
  refine ⟨?_, ?_⟩
  · intro h
    refine ⟨?_, key t h⟩
    cases fault with
    | some e => exact ⟨e, DeleteItem_faulty t id e⟩
    | none => exact ⟨_, key t h⟩
  · intro h
    have hm := (matching_ne_zero_iff t id).mpr h
    rw [DeleteItem_healthy, if_neg hm]
    refine ⟨rfl, key _ ?_⟩
    intro row hrow
    simpa using (List.mem_filter.mp hrow).2

theorem DeleteItem_twice_witness :
    ((∀ row ∈ shelf.rows, row.ID ≠ 9) ∧
      DeleteItem (memDB none) shelf 9 = (shelf, some (GoError.New "no item found to delete"))) ∧
    ((∃ row ∈ shelf.rows, row.ID = 1) ∧
      DeleteItem (memDB none) shelf 1 = ({ rows := [nameless], lastID := 2 }, none) ∧
      DeleteItem (memDB none) { rows := [nameless], lastID := 2 } 1
        = ({ rows := [nameless], lastID := 2 }, some (GoError.New "no item found to delete"))) :=
  ⟨⟨by decide, ((DeleteItem_twice none shelf 9).1 (by decide)).2⟩,
    ⟨by decide, rfl, ((DeleteItem_twice none shelf 1).2 (by decide)).2⟩⟩

/-! ## Partial update -/

theorem assign_ID (values row : Item) : (assign values row).ID = row.ID := rfl

theorem patched_ID (id : Int) (values row : Item) :
    (if row.ID = id then assign values row else row).ID = row.ID := by
  split <;> rfl

theorem lookup_after_updates (t : Table) (id j : Int) (values : Item) :
    Table.lookup
        { t with rows := t.rows.map (fun row => if row.ID = id then assign values row else row) } j
      = (t.lookup j).map (fun row => if row.ID = id then assign values row else row) := by
  unfold Table.lookup
  rw [List.find?_map]
  congr 2
  funext row
  simp [Function.comp, patched_ID]

theorem ids_after_updates (rows : List Item) (id : Int) (values : Item) :
    (rows.map (fun row => if row.ID = id then assign values row else row)).map Item.ID
      = rows.map Item.ID := by
  rw [List.map_map]
  apply List.map_congr_left
  intro row _
  simp [Function.comp, patched_ID]

/-- C4: a successful `UpdateItem` on the id of a stored record `old` leaves
under that id a record whose every field present in the input has the
input's value and whose every absent field has the value of `old`; all rows of
other ids, the order of the rows and the id counter are as before; the item
returned carries the supplied fields. -/
theorem UpdateItem_partial_update (fault : Option GoError) (t t1 : Table) (id : Int)
    (input item old : Item) (hold : t.lookup id = some old)
    (h : UpdateItem (memDB fault) t id input = (t1, some item, none)) :
    (∃ new, t1.lookup id = some new ∧ new.ID = id ∧
      (∀ v, input.Name = some v → new.Name = some v) ∧
      (input.Name = none → new.Name = old.Name) ∧
      (∀ v, input.Price = some v → new.Price = some v) ∧
      (input.Price = none → new.Price = old.Price) ∧
      (∀ v, input.Sold = some v → new.Sold = some v) ∧
      (input.Sold = none → new.Sold = old.Sold)) ∧
    (∀ j, j ≠ id → t1.lookup j = t.lookup j) ∧
    (∀ (n : Nat) (row : Item), t.rows[n]? = some row → row.ID ≠ id → t1.rows[n]? = some row) ∧
    t1.rows.map Item.ID = t.rows.map Item.ID ∧
    t1.lastID = t.lastID ∧
    item = { ID := 0, Name := input.Name, Price := input.Price, Sold := input.Sold } := by
  obtain ⟨hmem, hid⟩ := lookup_some_mem t id old hold
  have hm : t.matching id ≠ 0 := (matching_ne_zero_iff t id).mpr ⟨old, hmem, hid⟩
  cases fault with
  | some e => simp [UpdateItem_faulty] at h
  | none =>
      rw [UpdateItem_healthy, if_neg hm] at h
      simp only [Prod.mk.injEq, Option.some.injEq, and_true] at h
      obtain ⟨ht, hi⟩ := h
      subst ht
      subst hi
      refine ⟨?_, ?_, ?_, ?_, rfl, rfl⟩
      · refine ⟨assign { ID := 0, Name := input.Name, Price := input.Price, Sold := input.Sold } old,
          ?_, hid, ?_, ?_, ?_, ?_, ?_, ?_⟩
        · rw [lookup_after_updates, hold]
          simp [hid]
        · intro v hv
          simp [assign, hv]
        · intro hv
          simp [assign, hv]
        · intro v hv
          simp [assign, hv]
        · intro hv
          simp [assign, hv]
        · intro v hv
          simp [assign, hv]
        · intro hv
          simp [assign, hv]
      · intro j hj
        rw [lookup_after_updates]
        cases hl : t.lookup j with
        | none => rfl
        | some row =>
            have hrow := (lookup_some_mem t j row hl).2
            have hne : row.ID ≠ id := by rw [hrow]; exact hj
            simp [hne]
      · intro n row hn hne
        simp [List.getElem?_map, hn, hne]
      · exact ids_after_updates t.rows id _

theorem UpdateItem_partial_update_witness :
    (shelf.lookup 1 = some book ∧
      UpdateItem (memDB none) shelf 1 { ID := 0, Name := none, Price := some (999 / 100), Sold := none }
        = ({ rows := [{ ID := 1, Name := some "Book", Price := some (999 / 100), Sold := some false },
                      nameless],
             lastID := 2 },
           some { ID := 0, Name := none, Price := some (999 / 100), Sold := none }, none)) ∧
    (∀ j, j ≠ 1 →
      Table.lookup
          { rows := [{ ID := 1, Name := some "Book", Price := some (999 / 100), Sold := some false },
                     nameless],
            lastID := 2 } j
        = shelf.lookup j) :=
  ⟨⟨rfl, rfl⟩,
    (UpdateItem_partial_update none shelf _ 1
      { ID := 0, Name := none, Price := some (999 / 100), Sold := none } _ book rfl rfl).2.1⟩

/-! ## Create, find, delete, find -/

theorem FindItem_healthy (t : Table) (id : Int) :
    FindItem (memDB none) t id =
      match t.lookup id with
      | some row =>
          if isItemComplete row then (some row, true, none)
          else (none, false, some (GoError.New "broken item found"))
      | none => (none, false, none) := by
  cases hl : t.lookup id with
  | none => simp [FindItem, memDB, hl, errorsIs]
  | some row => cases hc : isItemComplete row <;> simp [FindItem, memDB, hl, hc]

theorem lookup_after_insert (t : Table) (stored : Item) (n : Int)
    (hfresh : ∀ row ∈ t.rows, row.ID ≠ stored.ID) :
    Table.lookup { rows := t.rows ++ [stored], lastID := n } stored.ID = some stored := by
  have hnone : t.rows.find? (fun row => row.ID == stored.ID) = none := by
    simpa [Table.lookup] using (lookup_eq_none_iff t stored.ID).mpr hfresh
  simp [Table.lookup, List.find?_append, hnone]

theorem lookup_after_delete (t : Table) (id : Int) :
    Table.lookup { t with rows := t.rows.filter (fun row => row.ID != id) } id = none := by
  rw [lookup_eq_none_iff]
  intro row hrow
  simpa using (List.mem_filter.mp hrow).2

/-- C7, as amended: after a successful `CreateItem` on a well-formed table,
returning id `i`, (a) if the input's name and price are both non-null,
`FindItem i` returns `found = true` with that id, the input's name and price
and `sold = false`; (b) for every input, once `DeleteItem i` has succeeded,
`FindItem i` returns `(nil, false, nil)`. -/
theorem create_find_delete_find (f1 f2 : Option GoError) (t t1 t2 : Table) (input item : Item)
    (hwf : t.WF) (hc : CreateItem (memDB f1) t input = (t1, some item, none)) :
    (input.Name ≠ none → input.Price ≠ none →
      FindItem (memDB none) t1 item.ID
        = (some { ID := item.ID, Name := input.Name, Price := input.Price, Sold := some false },
            true, none)) ∧
    (DeleteItem (memDB f2) t1 item.ID = (t2, none) →
      FindItem (memDB none) t2 item.ID = (none, false, none)) := by
  refine ⟨?_, ?_⟩
  · intro hn hp
    cases f1 with
    | some e => simp [CreateItem_faulty] at hc
    | none =>
        rw [CreateItem_healthy] at hc
        simp only [Prod.mk.injEq, Option.some.injEq, and_true] at hc
        obtain ⟨ht, hi⟩ := hc
        subst hi
        subst ht
        have hfresh : ∀ row ∈ t.rows, row.ID ≠ t.lastID + 1 := by
          intro row hrow
          have := (hwf.2.2 row hrow).2
          omega
        rw [FindItem_healthy, lookup_after_insert t _ _ hfresh]
        have hcomplete : isItemComplete
            { ID := t.lastID + 1, Name := input.Name, Price := input.Price, Sold := some false }
              = true := by
          rw [isItemComplete_iff]
          exact ⟨hn, hp, by simp⟩
        simp [hcomplete]
  · intro hd
    cases f2 with
    | some e => simp [DeleteItem_faulty] at hd
    | none =>
        rw [DeleteItem_healthy] at hd
        split at hd
        · simp at hd
        · simp only [Prod.mk.injEq, and_true] at hd
          subst hd
          rw [FindItem_healthy, lookup_after_delete]

theorem create_find_delete_find_witness :
    Table.empty.WF ∧
    CreateItem (memDB none) Table.empty { ID := 0, Name := some "Book", Price := some (25 / 2), Sold := none }
      = ({ rows := [book], lastID := 1 }, some book, none) ∧
    (FindItem (memDB none) { rows := [book], lastID := 1 } book.ID
        = (some { ID := book.ID, Name := some "Book", Price := some (25 / 2), Sold := some false },
            true, none)) ∧
    (DeleteItem (memDB none) { rows := [book], lastID := 1 } book.ID = ({ rows := [], lastID := 1 }, none) ∧
      FindItem (memDB none) { rows := [], lastID := 1 } book.ID = (none, false, none)) :=
  ⟨by unfold Table.WF; decide, rfl,
    (create_find_delete_find none none Table.empty _ { rows := [], lastID := 1 }
      { ID := 0, Name := some "Book", Price := some (25 / 2), Sold := none } book
      (by unfold Table.WF; decide) rfl).1 (by simp) (by simp),
    rfl,
    (create_find_delete_find none none Table.empty _ { rows := [], lastID := 1 }
      { ID := 0, Name := some "Book", Price := some (25 / 2), Sold := none } book
      (by unfold Table.WF; decide) rfl).2 rfl⟩

/-- C7, counterexample to the claim as stated: on the empty table `CreateItem`
of an input with a null name succeeds with id 1, yet `FindItem 1` then
returns `(nil, false, "broken item found")` instead of `found = true`. -/
theorem create_then_find_not_found_for_null_name :
    Table.empty.WF ∧
    CreateItem (memDB none) Table.empty { ID := 0, Name := none, Price := some 5, Sold := none }
      = ({ rows := [{ ID := 1, Name := none, Price := some 5, Sold := some false }], lastID := 1 },
          some { ID := 1, Name := none, Price := some 5, Sold := some false }, none) ∧
    FindItem (memDB none)
        { rows := [{ ID := 1, Name := none, Price := some 5, Sold := some false }], lastID := 1 } 1
      = (none, false, some (GoError.New "broken item found")) ∧
    ¬ (∀ (t t1 : Table) (input item : Item), t.WF →
        CreateItem (memDB none) t input = (t1, some item, none) →
        ∃ found, FindItem (memDB none) t1 item.ID = (some found, true, none) ∧
          found.Name = input.Name ∧ found.Price = input.Price ∧ found.Sold = some false) := by
  refine ⟨by unfold Table.WF; decide, rfl, rfl, ?_⟩
  intro hall
  obtain ⟨found, hf, _⟩ := hall Table.empty
    { rows := [{ ID := 1, Name := none, Price := some 5, Sold := some false }], lastID := 1 }
    { ID := 0, Name := none, Price := some 5, Sold := none }
    { ID := 1, Name := none, Price := some 5, Sold := some false } (by unfold Table.WF; decide) rfl
  have hbroken : FindItem (memDB none)
      { rows := [{ ID := 1, Name := none, Price := some 5, Sold := some false }], lastID := 1 } 1
        = (none, false, some (GoError.New "broken item found")) := rfl
  have hf2 : FindItem (memDB none)
      { rows := [{ ID := 1, Name := none, Price := some 5, Sold := some false }], lastID := 1 } 1
        = (some found, true, none) := hf
  rw [hbroken] at hf2
  simp at hf2

/-! ## Well-formedness is an invariant of the repository operations -/

theorem WF_empty : Table.empty.WF := by
  unfold Table.WF
  decide

theorem WF_CreateItem (fault : Option GoError) (t : Table) (input : Item) (hwf : t.WF) :
    (CreateItem (memDB fault) t input).1.WF := by
  cases fault with
  | some e => simpa [CreateItem_faulty] using hwf
  | none =>
      rw [CreateItem_healthy]
      refine ⟨?_, by have := hwf.2.1; simp only; omega, ?_⟩
      · simp only [List.map_append, List.map_cons, List.map_nil]
        rw [List.nodup_append]
        refine ⟨hwf.1, by simp, ?_⟩
        intro a ha hb
        simp only [List.mem_singleton] at hb
        obtain ⟨row, hrow, hra⟩ := List.mem_map.mp ha
        have := (hwf.2.2 row hrow).2
        omega
      · intro row hrow
        simp only [List.mem_append, List.mem_singleton] at hrow
        rcases hrow with hrow | hrow
        · have := hwf.2.2 row hrow
          exact ⟨this.1, by simp only; omega⟩
        · subst hrow
          have hpos : 0 ≤ t.lastID := hwf.2.1
          simp only
          omega

theorem WF_UpdateItem (fault : Option GoError) (t : Table) (id : Int) (input : Item)
    (hwf : t.WF) : (UpdateItem (memDB fault) t id input).1.WF := by
  cases fault with
  | some e => simpa [UpdateItem_faulty] using hwf
  | none =>
      have hrows : ∀ u : Table,
          u.rows = t.rows.map (fun row =>
            if row.ID = id then
              assign { ID := 0, Name := input.Name, Price := input.Price, Sold := input.Sold } row
            else row) →
          u.lastID = t.lastID → u.WF := by
        intro u hu hl
        refine ⟨?_, by rw [hl]; exact hwf.2.1, ?_⟩
        · rw [hu, ids_after_updates]
          exact hwf.1
        · intro row hrow
          rw [hu] at hrow
          obtain ⟨src, hsrc, hrs⟩ := List.mem_map.mp hrow
          have hidEq : row.ID = src.ID := by rw [← hrs]; exact patched_ID id _ src
          rw [hidEq, hl]
          exact hwf.2.2 src hsrc
      rw [UpdateItem_healthy]
      split <;> exact hrows _ rfl rfl

theorem WF_DeleteItem (fault : Option GoError) (t : Table) (id : Int) (hwf : t.WF) :
    (DeleteItem (memDB fault) t id).1.WF := by
  cases fault with
  | some e => simpa [DeleteItem_faulty] using hwf
  | none =>
      have hrows : ∀ u : Table, u.rows = t.rows.filter (fun row => row.ID != id) →
          u.lastID = t.lastID → u.WF := by
        intro u hu hl
        refine ⟨?_, by rw [hl]; exact hwf.2.1, ?_⟩
        · rw [hu]
          exact hwf.1.sublist ((List.filter_sublist t.rows).map Item.ID)
        · intro row hrow
          rw [hu] at hrow
          rw [hl]
          exact hwf.2.2 row (List.mem_filter.mp hrow).1
      rw [DeleteItem_healthy]
      split <;> exact hrows _ rfl rfl

end Shop
